import Mathlib

/-!
Shallow embedding of `scripts/generate_multi_parameter_e2e_analysis.py`:
the metric extractor `parse_custom_metrics`, the report enricher
`inject_metrics_into_json`, and the sweep controller `run_batch_scan`.
Text is modelled as `List Char`, numeric values exactly as `ℚ`, and the
process/file environment as explicit state records.
-/

/-- A character matched by the character class of digits and dots used by
all three metric patterns in the source. -/
def isNumChar (c : Char) : Bool :=
  c.isDigit || c == '.'

/-- Literal match: does the first list occur verbatim at the head of the
second? -/
def litMatch : List Char → List Char → Bool
  | [], _ => true
  | _ :: _, [] => false
  | a :: as, b :: bs => a == b && litMatch as bs

/-- Backtracking for the greedy capture group: given the literal suffix of
the pattern, the text following the literal pattern head, and a candidate
capture length (at most the length of the maximal digits-and-dots run), try
the longest capture first and shorten it until the suffix matches. -/
def bestCapture (suf rest : List Char) : Nat → Option (List Char)
  | 0 => none
  | k + 1 =>
    if litMatch suf (rest.drop (k + 1)) then some (rest.take (k + 1))
    else bestCapture suf rest k

/-- Match `pre`, then a nonempty greedy run of digits and dots, then `suf`,
at the head of `s`; return the captured run. -/
def matchAt (pre suf s : List Char) : Option (List Char) :=
  if litMatch pre s then
    let rest := s.drop pre.length
    bestCapture suf rest (rest.takeWhile isNumChar).length
  else none

/-- Leftmost search, as `re.search` does: scan start positions left to
right and return the first position's match. -/
def reSearch (pre suf : List Char) : List Char → Option (List Char)
  | [] => matchAt pre suf []
  | c :: cs =>
    match matchAt pre suf (c :: cs) with
    | some cap => some cap
    | none => reSearch pre suf cs

def digitVal (c : Char) : Nat := c.toNat - Char.toNat '0'

def parseNatDigits (ds : List Char) : Nat :=
  ds.foldl (fun a c => 10 * a + digitVal c) 0

/-- Python `float()` applied to a string drawn from the digits-and-dots
character class: it succeeds iff the string has at most one dot and at
least one digit, and then denotes the literal decimal value (modelled
exactly in ℚ; `ValueError` is modelled by `none`). -/
def parseNumDot (s : List Char) : Option ℚ :=
  if s.count '.' ≤ 1 ∧ s.any Char.isDigit = true then
    let ip := s.takeWhile (fun c => !(c == '.'))
    let fp := (s.dropWhile (fun c => !(c == '.'))).drop 1
    some (mkRat (parseNatDigits (ip ++ fp)) (10 ^ fp.length))
  else none

/-- One extraction rule: metric name, literal pattern head, literal
pattern tail, as in the `patterns` dict of `parse_custom_metrics`. -/
abbrev Rule := String × List Char × List Char

def pre_total : List Char := "Total generation and write time: ".toList

def suf_total : List Char := "ms".toList

def pre_record : List Char := "Record Throughput: ".toList

def suf_record : List Char := "M records/sec".toList

def pre_mem : List Char := "In-Memory Throughput: ".toList

def suf_mem : List Char := " GB/s".toList

/-- The fixed rule set of `parse_custom_metrics`, in source order. -/
def patterns : List Rule :=
  [("total_time_ms", pre_total, suf_total),
   ("record_throughput_m_sec", pre_record, suf_record),
   ("mem_throughput_gb_sec", pre_mem, suf_mem)]

/-- Result of the extractor: the metrics dict (insertion order) and the
keys for which a could-not-parse warning was printed. -/
structure ExtractResult where
  metrics : List (String × ℚ)
  warnings : List String
deriving DecidableEq

/-- One iteration of the `for key, pattern in patterns.items()` loop. -/
def stepRule (text : List Char) (acc : ExtractResult) (r : Rule) : ExtractResult :=
  match reSearch r.2.1 r.2.2 text with
  | none => acc
  | some cap =>
    match parseNumDot cap with
    | some v => { acc with metrics := acc.metrics ++ [(r.1, v)] }
    | none => { acc with warnings := acc.warnings ++ [r.1] }

def runRulesFrom (text : List Char) (acc : ExtractResult) (rs : List Rule) : ExtractResult :=
  rs.foldl (stepRule text) acc

/-- The extractor loop over an arbitrary rule list, started from the empty
metrics dict. -/
def runRules (rs : List Rule) (text : List Char) : ExtractResult :=
  runRulesFrom text ⟨[], []⟩ rs

/-- `parse_custom_metrics` from the source: runs the three fixed rules over
the captured text. -/
def parse_custom_metrics (text : List Char) : ExtractResult :=
  runRules patterns text

/-- The contribution of a single rule to the metrics dict. -/
def ruleOut (text : List Char) (r : Rule) : List (String × ℚ) :=
  match reSearch r.2.1 r.2.2 text with
  | none => []
  | some cap =>
    match parseNumDot cap with
    | some v => [(r.1, v)]
    | none => []

/-- The contribution of a single rule to the warning list. -/
def warnOut (text : List Char) (r : Rule) : List String :=
  match reSearch r.2.1 r.2.2 text with
  | none => []
  | some cap =>
    match parseNumDot cap with
    | some _ => []
    | none => [r.1]

def rulesOut (text : List Char) : List Rule → List (String × ℚ)
  | [] => []
  | r :: rs => ruleOut text r ++ rulesOut text rs

def warnsOut (text : List Char) : List Rule → List String
  | [] => []
  | r :: rs => warnOut text r ++ warnsOut text rs

/-- Python `dict` lookup over an insertion-ordered association list. -/
def lookupKey {α : Type} : List (String × α) → String → Option α
  | [], _ => none
  | (k, v) :: rest, key => if k = key then some v else lookupKey rest key

/-- JSON documents, as handled by `json.load` / `json.dump`: objects are
insertion-ordered key/value lists, numbers are exact rationals. -/
inductive Json where
  | null : Json
  | bool (b : Bool) : Json
  | num (q : ℚ) : Json
  | str (s : String) : Json
  | arr (xs : List Json) : Json
  | obj (kvs : List (String × Json)) : Json

/-- Python dict assignment `d[key] = v`: replace in place if the key is
present (keeping its position), otherwise append at the end. -/
def setKey {α : Type} : List (String × α) → String → α → List (String × α)
  | [], key, v => [(key, v)]
  | (k, w) :: rest, key, v =>
    if k = key then (key, v) :: rest else (k, w) :: setKey rest key v

/-- Remove every entry with the given key (an observer used to state that
the other fields of an object are untouched). -/
def eraseKey {α : Type} (l : List (String × α)) (key : String) : List (String × α) :=
  l.filter (fun p => p.1 != key)

/-- Python truthiness of a JSON value, as used by `if data.get("results"):`. -/
def truthy : Json → Bool
  | .null => false
  | .bool b => b
  | .num q => q != 0
  | .str s => s != ""
  | .arr xs => !xs.isEmpty
  | .obj kvs => !kvs.isEmpty

/-- A metrics dict serialized into the report, as `json.dump` writes it. -/
def metricsToJson (ms : List (String × ℚ)) : Json :=
  .obj (ms.map (fun p => (p.1, Json.num p.2)))

/-- The report file as the enricher can observe it: absent
(`FileNotFoundError`), openable but not readable/writable
(`PermissionError`), readable but not valid JSON (`json.JSONDecodeError`),
or parsed to a document. -/
inductive FileState where
  | missing : FileState
  | ioError : FileState
  | malformed : FileState
  | doc (j : Json) : FileState

/-- What `inject_metrics_into_json` did: skipped because the metrics dict
was empty, patched and rewrote the file, silently skipped a falsy
`results` entry, caught and logged one of the three handled exceptions, or
raised an exception not caught by its handler. -/
inductive InjectLog where
  | noMetrics : InjectLog
  | injected : InjectLog
  | skippedFalsy : InjectLog
  | errorLogged : InjectLog
  | raised : InjectLog
deriving DecidableEq

/-- `inject_metrics_into_json` from the source, as a transformer of the
report file's state paired with what it logged.  An empty metrics dict
returns at once; the three handled exceptions are caught and logged; a
document whose top level is not an object (`data.get` raises
`AttributeError`), whose truthy `results` value is not a list, or whose
first result entry is not an object (`TypeError`) makes the function raise
an exception its handler does not catch. -/
def inject_metrics_into_json (fs : FileState) (metrics : List (String × ℚ)) :
    FileState × InjectLog :=
  match metrics with
  | [] => (fs, .noMetrics)
  | _ :: _ =>
    match fs with
    | .missing => (.missing, .errorLogged)
    | .ioError => (.ioError, .errorLogged)
    | .malformed => (.malformed, .errorLogged)
    | .doc j =>
      match j with
      | .obj kvs =>
        match lookupKey kvs "results" with
        | some (.arr (first :: rest)) =>
          match first with
          | .obj fkvs =>
            (.doc (.obj (setKey kvs "results"
                (.arr (.obj (setKey fkvs "custom_metrics" (metricsToJson metrics)) :: rest)))),
              .injected)
          | _ => (.doc j, .raised)
        | some v => if truthy v then (.doc j, .raised) else (.doc j, .skippedFalsy)
        | none => (.doc j, .skippedFalsy)
      | _ => (.doc j, .raised)

/-- One configuration point: (writer count, target records, batch size). -/
abbrev Cfg := Nat × Nat × Nat

def WRITER_LEVELS : List Nat := [1, 2, 4, 6, 8]

def RECORD_LEVELS : List Nat := [100000, 1000000, 10000000]

def BATCH_SIZE_LEVELS : List Nat := [1024, 5120, 10240, 20480]

/-- `itertools.product(WRITER_LEVELS, RECORD_LEVELS, BATCH_SIZE_LEVELS)`:
outer axis first. -/
def param_combinations : List Cfg :=
  WRITER_LEVELS.flatMap (fun w =>
    RECORD_LEVELS.flatMap (fun r =>
      BATCH_SIZE_LEVELS.map (fun b => (w, r, b))))

/-- External behaviour observed for one configuration: the exit status of
the privileged benchmark invocation, the captured combined output, the
exit status the `chown` subprocess would report if attempted, and the
state of the report file when enrichment runs. -/
structure RunOutcome where
  exitCode : Nat
  output : List Char
  chownExit : Nat
  reportFile : FileState

/-- The external world the sweep runs against: the exit status of the
initial `cargo build`, the process environment, the real user and group
ids, and each configuration's run outcome. -/
structure World where
  buildExit : Nat
  env : String → Option String
  uid : Nat
  gid : Nat
  outcome : Cfg → RunOutcome

/-- The resolved (user_id, group_id) pair.  In the source the variables can
hold `None` only through the `except (TypeError, ValueError)` arm, but
`os.environ.get` with a default and `str(os.getuid())` are total, so that
arm never runs and both components are always `some`. -/
def resolve_ids (w : World) : Option String × Option String :=
  (some ((w.env "SUDO_UID").getD (Nat.repr w.uid)),
   some ((w.env "SUDO_GID").getD (Nat.repr w.gid)))

/-- Python truthiness of an optional string, as `if user_id and group_id:`
evaluates it: `None` and the empty string are falsy. -/
def pyTruthyOpt : Option String → Bool
  | none => false
  | some s => s != ""

/-- Observable actions of one loop iteration (indexed by the iteration). -/
inductive Event where
  | printedOutput (i : Nat) (out : List Char) : Event
  | chownInvoked (i : Nat) : Event
  | metricsExtracted (i : Nat) : Event
  | enrichInvoked (i : Nat) : Event
  | okPrinted (i : Nat) : Event
  | failBanner (i : Nat) : Event
deriving DecidableEq

/-- Result of one iteration of the per-configuration loop body: either an
exception escaped the `except subprocess.CalledProcessError` handler, or
the body finished, telling whether `successful_runs` was incremented. -/
inductive StepRes where
  | raisedStep (evts : List Event) : StepRes
  | done (counted : Bool) (evts : List Event) : StepRes
deriving DecidableEq

def stepEvents : StepRes → List Event
  | .raisedStep evts => evts
  | .done _ evts => evts

/-- The tail of the loop body after the ownership fix: extract metrics from
the captured output, enrich the report, and count the run successful —
unless enrichment raises an exception the handler does not catch. -/
def afterChownStep (i : Nat) (o : RunOutcome) (evts : List Event) : StepRes :=
  let m := (parse_custom_metrics o.output).metrics
  if (inject_metrics_into_json o.reportFile m).2 = .raised then
    .raisedStep (evts ++ [.metricsExtracted i, .enrichInvoked i])
  else
    .done true (evts ++ [.metricsExtracted i, .enrichInvoked i, .okPrinted i])

/-- One iteration of the per-configuration loop of `run_batch_scan`.
A nonzero benchmark exit prints the captured output and raises
`CalledProcessError`, caught by the handler (failure banner, no tally).
Otherwise, when both resolved ids are truthy, the `chown` subprocess runs
with `check=True`; a nonzero `chown` exit raises `CalledProcessError`,
caught by the same handler.  Then metrics are extracted and injected. -/
def stepConfig (w : World) (uidO gidO : Option String) (i : Nat) (c : Cfg) : StepRes :=
  let o := w.outcome c
  if o.exitCode ≠ 0 then
    .done false [.printedOutput i o.output, .failBanner i]
  else if pyTruthyOpt uidO && pyTruthyOpt gidO then
    if o.chownExit ≠ 0 then
      .done false [.chownInvoked i, .failBanner i]
    else
      afterChownStep i o [.chownInvoked i]
  else
    afterChownStep i o []

/-- Final state of the sweep: the initial build failed (its exception
propagates before any configuration is attempted and no summary is
printed), an exception escaped the loop at some iteration (no summary), or
the loop completed and printed `successful` of `total`. -/
inductive ScanResult where
  | buildFailed : ScanResult
  | aborted (i : Nat) (trace : List Event) : ScanResult
  | completed (successful total : Nat) (trace : List Event) : ScanResult
deriving DecidableEq

/-- The per-configuration loop of `run_batch_scan`. -/
def scanLoop (w : World) (uidO gidO : Option String) (total : Nat) :
    List Cfg → Nat → Nat → List Event → ScanResult
  | [], _, succ, tr => .completed succ total tr
  | c :: rest, i, succ, tr =>
    match stepConfig w uidO gidO i c with
    | .raisedStep evts => .aborted i (tr ++ evts)
    | .done counted evts =>
      scanLoop w uidO gidO total rest (i + 1) (if counted then succ + 1 else succ) (tr ++ evts)

/-- `run_batch_scan` over an arbitrary configuration matrix: build first
(`check=True`, so a nonzero build exit propagates), then resolve the ids,
then run the loop and print the final summary. -/
def scanConfigs (w : World) (cfgs : List Cfg) : ScanResult :=
  if w.buildExit ≠ 0 then .buildFailed
  else
    let ids := resolve_ids w
    scanLoop w ids.1 ids.2 cfgs.length cfgs 0 0 []

/-- `run_batch_scan` from the source: the sweep over the fixed
5 × 3 × 4 configuration matrix. -/
def run_batch_scan (w : World) : ScanResult :=
  scanConfigs w param_combinations

/-- The `successful` / `total` pair of the final summary, when one was
printed. -/
def successCount : ScanResult → Option (Nat × Nat)
  | .completed s t _ => some (s, t)
  | _ => none

def wAllFail : World :=
  { buildExit := 0, env := fun _ => some "u", uid := 1000, gid := 1000,
    outcome := fun _ => { exitCode := 1, output := "boom".toList, chownExit := 0,
                          reportFile := .missing } }

def wChownFail : World :=
  { buildExit := 0, env := fun _ => some "u", uid := 1000, gid := 1000,
    outcome := fun c =>
      if c = (1, 100000, 1024) then
        { exitCode := 0, output := [], chownExit := 1, reportFile := .missing }
      else
        { exitCode := 0, output := [], chownExit := 0, reportFile := .missing } }

/-- The literal line required by the total-time extraction rule. -/
def lineTT : List Char := "Total generation and write time: 123.4ms".toList

/-- The capture group of `lineTT`. -/
def capTT : List Char := ['1', '2', '3', '.', '4']

/-- A text that contains `lineTT` as a substring but also an earlier match
of the same pattern. -/
def cexTextTT : List Char :=
  "Total generation and write time: 9ms and Total generation and write time: 123.4ms".toList

/-- A world in which the build succeeds, no `SUDO_UID`/`SUDO_GID` variables
are set, and every configuration's run, chown and report are clean. -/
def wOK : World :=
  { buildExit := 0, env := fun _ => none, uid := 1000, gid := 1000,
    outcome := fun _ => { exitCode := 0, output := [], chownExit := 0,
                          reportFile := .missing } }

/-- A world whose initial `cargo build` exits nonzero. -/
def wBuildFail : World :=
  { buildExit := 101, env := fun _ => none, uid := 1000, gid := 1000,
    outcome := fun _ => { exitCode := 0, output := [], chownExit := 0,
                          reportFile := .missing } }

/-- A world in which `SUDO_UID` and `SUDO_GID` are set to empty strings. -/
def wEmptySudo : World :=
  { buildExit := 0, env := fun _ => some "", uid := 0, gid := 0,
    outcome := fun _ => { exitCode := 0, output := [], chownExit := 0,
                          reportFile := .missing } }

/-- A configuration for which the loop body completes and increments the
tally: benchmark exit 0, chown exit 0, and enrichment does not raise an
exception that escapes the handler. -/
abbrev goodCfg (w : World) (c : Cfg) : Prop :=
  (w.outcome c).exitCode = 0 ∧ (w.outcome c).chownExit = 0 ∧
  (inject_metrics_into_json (w.outcome c).reportFile
      (parse_custom_metrics (w.outcome c).output).metrics).2 ≠ .raised

/-- The document produced by one enrichment of a well-formed report. -/
def enrichedDoc (kvs fkvs : List (String × Json)) (t : List Json)
    (ms : List (String × ℚ)) : Json :=
  .obj (setKey kvs "results"
    (.arr (.obj (setKey fkvs "custom_metrics" (metricsToJson ms)) :: t)))

/-- Does `sub` occur as a contiguous substring of the second list? -/
def hasSubstring (sub : List Char) : List Char → Bool
  | [] => litMatch sub []
  | c :: cs => litMatch sub (c :: cs) || hasSubstring sub cs

theorem lookupKey_cons_self {α : Type} (k : String) (v : α) (l : List (String × α)) :
    lookupKey ((k, v) :: l) k = some v := by
  simp [lookupKey]

theorem lookupKey_cons_ne {α : Type} {k key : String} (h : k ≠ key) (v : α)
    (l : List (String × α)) : lookupKey ((k, v) :: l) key = lookupKey l key := by
  simp [lookupKey, h]

theorem lookupKey_append_of_none {α : Type} {l1 : List (String × α)} {key : String}
    (h : lookupKey l1 key = none) (l2 : List (String × α)) :
    lookupKey (l1 ++ l2) key = lookupKey l2 key := by
  induction l1 with
  | nil => simp
  | cons p rest ih =>
    obtain ⟨k, v⟩ := p
    by_cases hk : k = key
    · subst hk
      simp [lookupKey] at h
    · simp only [List.cons_append, lookupKey_cons_ne hk] at h ⊢
      exact ih h

theorem lookupKey_setKey_self {α : Type} (l : List (String × α)) (key : String) (v : α) :
    lookupKey (setKey l key v) key = some v := by
  induction l with
  | nil => simp [setKey, lookupKey]
  | cons p rest ih =>
    obtain ⟨k, w⟩ := p
    by_cases hk : k = key
    · subst hk
      simp [setKey, lookupKey]
    · simp [setKey, hk, lookupKey, ih]

theorem setKey_setKey {α : Type} (l : List (String × α)) (key : String) (v v2 : α) :
    setKey (setKey l key v) key v2 = setKey l key v2 := by
  induction l with
  | nil => simp [setKey]
  | cons p rest ih =>
    obtain ⟨k, w⟩ := p
    by_cases hk : k = key
    · subst hk
      simp [setKey]
    · simp [setKey, hk, ih]

theorem eraseKey_setKey {α : Type} (l : List (String × α)) (key : String) (v : α) :
    eraseKey (setKey l key v) key = eraseKey l key := by
  induction l with
  | nil => simp [setKey, eraseKey]
  | cons p rest ih =>
    obtain ⟨k, w⟩ := p
    by_cases hk : k = key
    · subst hk
      simp [setKey, eraseKey]
    · simp [setKey, hk, eraseKey] at ih ⊢
      simpa [bne_iff_ne, hk] using ih

theorem runRulesFrom_metrics (text : List Char) :
    ∀ (rs : List Rule) (acc : ExtractResult),
      (runRulesFrom text acc rs).metrics = acc.metrics ++ rulesOut text rs := by
  intro rs
  induction rs with
  | nil => intro acc; simp [runRulesFrom, rulesOut]
  | cons r rest ih =>
    intro acc
    simp only [runRulesFrom, List.foldl_cons, rulesOut]
    rw [show List.foldl (stepRule text) (stepRule text acc r) rest
          = runRulesFrom text (stepRule text acc r) rest from rfl]
    rw [ih]
    unfold stepRule ruleOut
    cases hs : reSearch r.2.1 r.2.2 text with
    | none => simp [hs]
    | some cap =>
      cases hp : parseNumDot cap with
      | none => simp [hs, hp]
      | some v => simp [hs, hp]

theorem runRulesFrom_warnings (text : List Char) :
    ∀ (rs : List Rule) (acc : ExtractResult),
      (runRulesFrom text acc rs).warnings = acc.warnings ++ warnsOut text rs := by
  intro rs
  induction rs with
  | nil => intro acc; simp [runRulesFrom, warnsOut]
  | cons r rest ih =>
    intro acc
    simp only [runRulesFrom, List.foldl_cons, warnsOut]
    rw [show List.foldl (stepRule text) (stepRule text acc r) rest
          = runRulesFrom text (stepRule text acc r) rest from rfl]
    rw [ih]
    unfold stepRule warnOut
    cases hs : reSearch r.2.1 r.2.2 text with
    | none => simp [hs]
    | some cap =>
      cases hp : parseNumDot cap with
      | none => simp [hs, hp]
      | some v => simp [hs, hp]

theorem rulesOut_append (text : List Char) (rs1 rs2 : List Rule) :
    rulesOut text (rs1 ++ rs2) = rulesOut text rs1 ++ rulesOut text rs2 := by
  induction rs1 with
  | nil => simp [rulesOut]
  | cons r rest ih => simp [rulesOut, ih]

theorem warnsOut_append (text : List Char) (rs1 rs2 : List Rule) :
    warnsOut text (rs1 ++ rs2) = warnsOut text rs1 ++ warnsOut text rs2 := by
  induction rs1 with
  | nil => simp [warnsOut]
  | cons r rest ih => simp [warnsOut, ih]

theorem lookupKey_ruleOut_ne (text : List Char) {key : String} {r : Rule} (h : r.1 ≠ key) :
    lookupKey (ruleOut text r) key = none := by
  unfold ruleOut
  cases hs : reSearch r.2.1 r.2.2 text with
  | none => simp [lookupKey]
  | some cap =>
    cases hp : parseNumDot cap with
    | none => simp [hp, lookupKey]
    | some v => simp [hp, lookupKey, h]

theorem lookupKey_rulesOut_notMem (text : List Char) {key : String} :
    ∀ {rs : List Rule}, key ∉ rs.map (fun r => r.1) →
      lookupKey (rulesOut text rs) key = none := by
  intro rs
  induction rs with
  | nil => intro _; simp [rulesOut, lookupKey]
  | cons r rest ih =>
    intro h
    simp only [List.map_cons, List.mem_cons, not_or] at h
    simp only [rulesOut]
    rw [lookupKey_append_of_none (lookupKey_ruleOut_ne text (fun e => h.1 e.symm)) _]
    exact ih h.2

theorem reSearch_eq_of_first (pre suf : List Char) :
    ∀ (n : Nat) (s cap : List Char),
      (∀ j, j < n → matchAt pre suf (s.drop j) = none) →
      matchAt pre suf (s.drop n) = some cap →
      reSearch pre suf s = some cap := by
  intro n
  induction n with
  | zero =>
    intro s cap _ h2
    rw [List.drop_zero] at h2
    cases s with
    | nil => simpa [reSearch] using h2
    | cons c cs => simp [reSearch, h2]
  | succ n ih =>
    intro s cap h1 h2
    cases s with
    | nil =>
      have h0 := h1 0 (Nat.succ_pos n)
      rw [List.drop_zero] at h0
      simp [List.drop_nil] at h2 h0
      rw [h0] at h2
      exact absurd h2 (by simp)
    | cons c cs =>
      have h0 := h1 0 (Nat.succ_pos n)
      rw [List.drop_zero] at h0
      rw [List.drop_succ_cons] at h2
      simp only [reSearch, h0]
      exact ih cs cap (fun j hj => by
        have := h1 (j + 1) (Nat.succ_lt_succ hj)
        rwa [List.drop_succ_cons] at this) h2

theorem toDigitsCore_len (b : Nat) :
    ∀ (fuel n : Nat) (ds : List Char), ds.length ≤ (Nat.toDigitsCore b fuel n ds).length := by
  intro fuel
  induction fuel with
  | zero => intro n ds; simp [Nat.toDigitsCore]
  | succ f ih =>
    intro n ds
    unfold Nat.toDigitsCore
    by_cases h : n / b = 0
    · simp [h]
    · simp only [h, if_false]
      exact le_trans (by simp) (ih _ _)

theorem nat_repr_ne_empty (n : Nat) : Nat.repr n ≠ "" := by
  have h1 : 0 < (Nat.toDigits 10 n).length := by
    unfold Nat.toDigits Nat.toDigitsCore
    by_cases h : n / 10 = 0
    · simp [h]
    · simp only [h, if_false]
      exact lt_of_lt_of_le (by simp) (toDigitsCore_len 10 _ _ _)
  intro h
  unfold Nat.repr at h
  have h2 : (Nat.toDigits 10 n) = [] := by
    have := congrArg String.data h
    simpa [List.asString] using this
  rw [h2] at h1
  simp at h1

theorem matchAt_lineTT (b : List Char) :
    matchAt pre_total suf_total (lineTT ++ b) = some capTT := rfl

theorem ruleOut_eq_of_some {text cap : List Char} {k : String} {p s : List Char} {v : ℚ}
    (hm : reSearch p s text = some cap) (hp : parseNumDot cap = some v) :
    ruleOut text (k, p, s) = [(k, v)] := by
  unfold ruleOut
  simp [hm, hp]

theorem ruleOut_eq_of_none {text : List Char} {k : String} {p s : List Char}
    (hm : reSearch p s text = none) : ruleOut text (k, p, s) = [] := by
  unfold ruleOut
  simp [hm]

theorem parse_metrics_eq (text : List Char) :
    (parse_custom_metrics text).metrics = rulesOut text patterns := by
  rw [show parse_custom_metrics text = runRulesFrom text ⟨[], []⟩ patterns from rfl,
    runRulesFrom_metrics]
  rfl

theorem parse_warnings_eq (text : List Char) :
    (parse_custom_metrics text).warnings = warnsOut text patterns := by
  rw [show parse_custom_metrics text = runRulesFrom text ⟨[], []⟩ patterns from rfl,
    runRulesFrom_warnings]
  rfl

/-- Claim C5 (amended).  For every input text that contains the substring
"Total generation and write time: 123.4ms" at a position before which the
total-time pattern has no match (so this occurrence is the leftmost match,
as `re.search` selects), the extractor maps `total_time_ms` to exactly
123.4 — the literal value, with no unit conversion; and for every input
text in which the rule's pattern has no match at all, `total_time_ms` is
absent from the result mapping (not present with value zero). -/
theorem C5_extractor_literal_value (a b other : List Char)
    (h1 : ∀ j, j < a.length → matchAt pre_total suf_total ((a ++ lineTT ++ b).drop j) = none)
    (h2 : reSearch pre_total suf_total other = none) :
    lookupKey (parse_custom_metrics (a ++ lineTT ++ b)).metrics "total_time_ms"
      = some (mkRat 1234 10)
    ∧ lookupKey (parse_custom_metrics other).metrics "total_time_ms" = none := by
  constructor
  · have hm : matchAt pre_total suf_total ((a ++ lineTT ++ b).drop a.length) = some capTT := by
      rw [List.append_assoc, List.drop_left]
      exact matchAt_lineTT b
    have hs : reSearch pre_total suf_total (a ++ lineTT ++ b) = some capTT :=
      reSearch_eq_of_first pre_total suf_total a.length _ capTT h1 hm
    rw [parse_metrics_eq]
    simp only [patterns, rulesOut]
    rw [ruleOut_eq_of_some hs (show parseNumDot capTT = some (mkRat 1234 10) from rfl)]
    simp only [List.cons_append, List.nil_append]
    exact lookupKey_cons_self _ _ _
  · rw [parse_metrics_eq]
    simp only [patterns, rulesOut]
    rw [ruleOut_eq_of_none h2]
    simp only [List.nil_append]
    rw [lookupKey_append_of_none (lookupKey_ruleOut_ne other (by decide))]
    rw [lookupKey_append_of_none (lookupKey_ruleOut_ne other (by decide))]
    rfl

/-- Claim C5, as stated, is false: this text contains the substring
"Total generation and write time: 123.4ms", yet the extractor returns 9
for `total_time_ms`, because `re.search` picks the leftmost match of the
pattern and an earlier occurrence captures "9". -/
theorem C5_counterexample :
    hasSubstring lineTT cexTextTT = true
    ∧ lookupKey (parse_custom_metrics cexTextTT).metrics "total_time_ms" = some (mkRat 9 1)
    ∧ some (mkRat 9 1) ≠ some (mkRat 1234 10) :=
  ⟨by decide, by decide, by decide⟩

/-- Witness for C5: the amended theorem applied to the bare metric line
(no earlier match) and to a text with no match at all. -/
theorem C5_witness :
    lookupKey (parse_custom_metrics ([] ++ lineTT ++ [])).metrics "total_time_ms"
      = some (mkRat 1234 10)
    ∧ lookupKey (parse_custom_metrics "no metrics in this output".toList).metrics
        "total_time_ms" = none :=
  C5_extractor_literal_value [] [] "no metrics in this output".toList
    (by decide) (by decide)

/-- Claim C6.  If a rule's pattern matches but the captured substring is
not parseable as a number (Python `float` raises `ValueError`), the
extractor emits a warning naming the metric and omits it from the result
mapping; the other rules' metrics are exactly those computed without the
failing rule, and the loop finishes normally (the embedding is total: the
`ValueError` is caught inside the loop body).  Instantiating the rule list
with `patterns` gives the statement for `parse_custom_metrics`. -/
theorem C6_extractor_warning (rs1 rs2 : List Rule) (k : String) (p s text cap : List Char)
    (hm : reSearch p s text = some cap) (hp : parseNumDot cap = none)
    (hk : k ∉ (rs1 ++ rs2).map (fun r => r.1)) :
    (runRules (rs1 ++ (k, p, s) :: rs2) text).metrics = (runRules (rs1 ++ rs2) text).metrics
    ∧ lookupKey (runRules (rs1 ++ (k, p, s) :: rs2) text).metrics k = none
    ∧ k ∈ (runRules (rs1 ++ (k, p, s) :: rs2) text).warnings := by
  have hro : ruleOut text (k, p, s) = [] := by
    unfold ruleOut
    simp [hm, hp]
  have hwo : warnOut text (k, p, s) = [k] := by
    unfold warnOut
    simp [hm, hp]
  have hmet : (runRules (rs1 ++ (k, p, s) :: rs2) text).metrics
      = rulesOut text rs1 ++ rulesOut text rs2 := by
    rw [show runRules (rs1 ++ (k, p, s) :: rs2) text
          = runRulesFrom text ⟨[], []⟩ (rs1 ++ (k, p, s) :: rs2) from rfl]
    rw [runRulesFrom_metrics]
    rw [show ((k, p, s) :: rs2) = [(k, p, s)] ++ rs2 from rfl, rulesOut_append,
      rulesOut_append]
    simp [rulesOut, hro]
  refine ⟨?_, ?_, ?_⟩
  · rw [hmet]
    rw [show runRules (rs1 ++ rs2) text = runRulesFrom text ⟨[], []⟩ (rs1 ++ rs2) from rfl]
    rw [runRulesFrom_metrics, rulesOut_append]
    rfl
  · rw [hmet]
    rw [show rulesOut text rs1 ++ rulesOut text rs2 = rulesOut text (rs1 ++ rs2) from
      (rulesOut_append text rs1 rs2).symm]
    exact lookupKey_rulesOut_notMem text hk
  · rw [show runRules (rs1 ++ (k, p, s) :: rs2) text
          = runRulesFrom text ⟨[], []⟩ (rs1 ++ (k, p, s) :: rs2) from rfl]
    rw [runRulesFrom_warnings]
    rw [show ((k, p, s) :: rs2) = [(k, p, s)] ++ rs2 from rfl, warnsOut_append,
      warnsOut_append]
    simp [warnsOut, hwo]

/-- Witness for C6: on a text whose total-time field reads "1.2.3" the
pattern matches, `float` fails, a warning names `total_time_ms`, and the
result mapping omits it. -/
theorem C6_witness :
    (parse_custom_metrics "Total generation and write time: 1.2.3ms".toList).metrics
      = (runRules ([] ++ [("record_throughput_m_sec", pre_record, suf_record),
          ("mem_throughput_gb_sec", pre_mem, suf_mem)])
          "Total generation and write time: 1.2.3ms".toList).metrics
    ∧ lookupKey (parse_custom_metrics "Total generation and write time: 1.2.3ms".toList).metrics
        "total_time_ms" = none
    ∧ "total_time_ms" ∈
        (parse_custom_metrics "Total generation and write time: 1.2.3ms".toList).warnings :=
  C6_extractor_warning [] [("record_throughput_m_sec", pre_record, suf_record),
      ("mem_throughput_gb_sec", pre_mem, suf_mem)]
    "total_time_ms" pre_total suf_total
    "Total generation and write time: 1.2.3ms".toList ['1', '.', '2', '.', '3']
    (by decide) (by decide) (by decide)

/-- Claim C7.  If the metrics dict is empty, `inject_metrics_into_json`
returns at once: the report file is left untouched in every state and
nothing is raised. -/
theorem C7_enricher_empty_noop (fs : FileState) :
    inject_metrics_into_json fs [] = (fs, .noMetrics) := rfl

/-- Claim C4.  For every nonempty metrics dict, if the report file is
missing (`FileNotFoundError`), unreadable or unwritable
(`PermissionError`), or malformed (`json.JSONDecodeError`), the enricher
catches the exception, logs it, and returns normally with the file
unchanged, so the sweep is not aborted; enrichment is simply skipped. -/
theorem C4_enricher_catches (fs : FileState) (m : String × ℚ) (ms : List (String × ℚ))
    (hfs : fs = .missing ∨ fs = .ioError ∨ fs = .malformed) :
    inject_metrics_into_json fs (m :: ms) = (fs, .errorLogged) := by
  rcases hfs with h | h | h <;> subst h <;> rfl

/-- Witness for C4: a missing report file with one metric. -/
theorem C4_witness :
    inject_metrics_into_json .missing [("total_time_ms", mkRat 1234 10)]
      = (.missing, .errorLogged) :=
  C4_enricher_catches .missing ("total_time_ms", mkRat 1234 10) [] (Or.inl rfl)

/-- Claim C8.  For a well-formed report document (top-level object whose
`results` value is a nonempty array whose first entry is an object) and a
nonempty metrics dict, enrichment sets `custom_metrics` on the first
result entry and rewrites the file; a second enrichment with the same
metrics yields the identical document; after each enrichment the
`custom_metrics` field equals the injected metrics dict; and no other
field is altered: erasing `custom_metrics` from the first entry recovers
the original first entry, the tail of `results` is unchanged (visible in
`enrichedDoc`), and erasing `results` at top level recovers the original
top-level fields. -/
theorem C8_enricher_idempotent (kvs fkvs : List (String × Json)) (t : List Json)
    (m : String × ℚ) (ms : List (String × ℚ))
    (hres : lookupKey kvs "results" = some (.arr (.obj fkvs :: t))) :
    inject_metrics_into_json (.doc (.obj kvs)) (m :: ms)
      = (.doc (enrichedDoc kvs fkvs t (m :: ms)), .injected)
    ∧ inject_metrics_into_json (.doc (enrichedDoc kvs fkvs t (m :: ms))) (m :: ms)
      = (.doc (enrichedDoc kvs fkvs t (m :: ms)), .injected)
    ∧ lookupKey (setKey fkvs "custom_metrics" (metricsToJson (m :: ms))) "custom_metrics"
      = some (metricsToJson (m :: ms))
    ∧ eraseKey (setKey fkvs "custom_metrics" (metricsToJson (m :: ms))) "custom_metrics"
      = eraseKey fkvs "custom_metrics"
    ∧ eraseKey (setKey kvs "results"
        (.arr (.obj (setKey fkvs "custom_metrics" (metricsToJson (m :: ms))) :: t))) "results"
      = eraseKey kvs "results" := by
  refine ⟨?_, ?_, ?_, ?_, ?_⟩
  · simp only [inject_metrics_into_json, hres, enrichedDoc]
  · simp only [inject_metrics_into_json, enrichedDoc,
      lookupKey_setKey_self kvs "results"
        (Json.arr (.obj (setKey fkvs "custom_metrics" (metricsToJson (m :: ms))) :: t))]
    rw [setKey_setKey fkvs, setKey_setKey kvs]
  · exact lookupKey_setKey_self _ _ _
  · exact eraseKey_setKey _ _ _
  · exact eraseKey_setKey _ _ _

/-- Witness for C8: a one-entry report enriched twice with one metric. -/
theorem C8_witness :
    inject_metrics_into_json
        (.doc (.obj [("results", Json.arr [Json.obj [("times", Json.arr [Json.num 1])]])]))
        [("total_time_ms", mkRat 1234 10)]
      = (.doc (enrichedDoc [("results", Json.arr [Json.obj [("times", Json.arr [Json.num 1])]])]
          [("times", Json.arr [Json.num 1])] [] [("total_time_ms", mkRat 1234 10)]), .injected)
    ∧ inject_metrics_into_json
        (.doc (enrichedDoc [("results", Json.arr [Json.obj [("times", Json.arr [Json.num 1])]])]
          [("times", Json.arr [Json.num 1])] [] [("total_time_ms", mkRat 1234 10)]))
        [("total_time_ms", mkRat 1234 10)]
      = (.doc (enrichedDoc [("results", Json.arr [Json.obj [("times", Json.arr [Json.num 1])]])]
          [("times", Json.arr [Json.num 1])] [] [("total_time_ms", mkRat 1234 10)]), .injected)
    ∧ lookupKey (setKey [("times", Json.arr [Json.num 1])] "custom_metrics"
          (metricsToJson [("total_time_ms", mkRat 1234 10)])) "custom_metrics"
      = some (metricsToJson [("total_time_ms", mkRat 1234 10)])
    ∧ eraseKey (setKey [("times", Json.arr [Json.num 1])] "custom_metrics"
          (metricsToJson [("total_time_ms", mkRat 1234 10)])) "custom_metrics"
      = eraseKey [("times", Json.arr [Json.num 1])] "custom_metrics"
    ∧ eraseKey (setKey [("results", Json.arr [Json.obj [("times", Json.arr [Json.num 1])]])] "results"
          (Json.arr (Json.obj (setKey [("times", Json.arr [Json.num 1])] "custom_metrics"
            (metricsToJson [("total_time_ms", mkRat 1234 10)])) :: ([] : List Json)))) "results"
      = eraseKey [("results", Json.arr [Json.obj [("times", Json.arr [Json.num 1])]])] "results" :=
  C8_enricher_idempotent [("results", Json.arr [Json.obj [("times", Json.arr [Json.num 1])]])]
    [("times", Json.arr [Json.num 1])] [] ("total_time_ms", mkRat 1234 10) [] rfl

/-- Claim C1.  If the Run Executor invocation for a configuration exits
nonzero, the loop body prints the captured combined output and raises
`CalledProcessError`, caught by the handler: no chown, no metric
extraction, no enrichment happens for that configuration (the step's full
event list is exactly the printed output and the failure banner), the
tally is not incremented, and the loop continues with the next
configuration. -/
theorem C1_nonzero_exit_skips_pipeline (w : World) (uidO gidO : Option String)
    (total i succ : Nat) (c : Cfg) (rest : List Cfg) (tr : List Event)
    (h : (w.outcome c).exitCode ≠ 0) :
    stepConfig w uidO gidO i c
      = .done false [.printedOutput i (w.outcome c).output, .failBanner i]
    ∧ scanLoop w uidO gidO total (c :: rest) i succ tr
      = scanLoop w uidO gidO total rest (i + 1) succ
          (tr ++ [.printedOutput i (w.outcome c).output, .failBanner i]) := by
  have hstep : stepConfig w uidO gidO i c
      = .done false [.printedOutput i (w.outcome c).output, .failBanner i] := by
    unfold stepConfig
    simp [h]
  refine ⟨hstep, ?_⟩
  simp [scanLoop, hstep]

/-- Witness for C1: a configuration whose run exits with status 1. -/
theorem C1_witness :
    stepConfig wAllFail (some "u") (some "u") 0 (1, 100000, 1024)
      = .done false [.printedOutput 0 "boom".toList, .failBanner 0]
    ∧ scanLoop wAllFail (some "u") (some "u") 1 [(1, 100000, 1024)] 0 0 []
      = scanLoop wAllFail (some "u") (some "u") 1 [] 1 0
          ([] ++ [.printedOutput 0 "boom".toList, .failBanner 0]) :=
  C1_nonzero_exit_skips_pipeline wAllFail (some "u") (some "u") 1 0 0
    (1, 100000, 1024) [] [] (by decide)

/-- Claim C2 (amended).  A nonzero exit of the ownership-restoring `chown`
subprocess raises `subprocess.CalledProcessError`, which is caught by the
same `except` handler as benchmark failures: the failure banner is
printed, the configuration is not counted successful, metric extraction
and enrichment are skipped for it, and the sweep continues with the next
configuration (it is not aborted). -/
theorem C2_chown_failure_caught (w : World) (uidO gidO : Option String)
    (total i succ : Nat) (c : Cfg) (rest : List Cfg) (tr : List Event)
    (h0 : (w.outcome c).exitCode = 0)
    (hu : pyTruthyOpt uidO = true) (hg : pyTruthyOpt gidO = true)
    (hc : (w.outcome c).chownExit ≠ 0) :
    stepConfig w uidO gidO i c = .done false [.chownInvoked i, .failBanner i]
    ∧ scanLoop w uidO gidO total (c :: rest) i succ tr
      = scanLoop w uidO gidO total rest (i + 1) succ
          (tr ++ [.chownInvoked i, .failBanner i]) := by
  have hstep : stepConfig w uidO gidO i c = .done false [.chownInvoked i, .failBanner i] := by
    unfold stepConfig
    simp [h0, hu, hg, hc]
  refine ⟨hstep, ?_⟩
  simp [scanLoop, hstep]

/-- Claim C2, as stated, is false: in this world the first configuration's
run exits 0 and its `chown` exits 1, yet the sweep does not abort — the
second configuration still runs to completion and the final summary
(1 of 2) is printed. -/
theorem C2_counterexample :
    (wChownFail.outcome (1, 100000, 1024)).exitCode = 0
    ∧ (wChownFail.outcome (1, 100000, 1024)).chownExit ≠ 0
    ∧ scanConfigs wChownFail [(1, 100000, 1024), (2, 100000, 1024)] =
        .completed 1 2 [.chownInvoked 0, .failBanner 0, .chownInvoked 1,
          .metricsExtracted 1, .enrichInvoked 1, .okPrinted 1] :=
  ⟨by decide, by decide, by decide⟩

/-- Witness for C2: the amended theorem applied to the chown-failing
configuration of `wChownFail`. -/
theorem C2_witness :
    stepConfig wChownFail (some "u") (some "u") 0 (1, 100000, 1024)
      = StepRes.done false [.chownInvoked 0, .failBanner 0]
    ∧ scanLoop wChownFail (some "u") (some "u") 2 [(1, 100000, 1024), (2, 100000, 1024)] 0 0 []
      = scanLoop wChownFail (some "u") (some "u") 2 [(2, 100000, 1024)] 1 0
          ([] ++ [.chownInvoked 0, .failBanner 0]) :=
  C2_chown_failure_caught wChownFail (some "u") (some "u") 2 0 0
    (1, 100000, 1024) [(2, 100000, 1024)] [] (by decide) (by decide) (by decide) (by decide)

theorem stepConfig_of_good (w : World) (uidO gidO : Option String) (i : Nat) (c : Cfg)
    (h : goodCfg w c) :
    stepConfig w uidO gidO i c = .done true
      ((if (pyTruthyOpt uidO && pyTruthyOpt gidO) = true then [Event.chownInvoked i] else [])
        ++ [.metricsExtracted i, .enrichInvoked i, .okPrinted i]) := by
  obtain ⟨h0, hc, hr⟩ := h
  unfold stepConfig afterChownStep
  by_cases ht : (pyTruthyOpt uidO && pyTruthyOpt gidO) = true
  · simp [h0, hc, hr, ht]
  · simp [h0, hr, ht]

theorem scanLoop_all_good (w : World) (uidO gidO : Option String) (total : Nat) :
    ∀ (cfgs : List Cfg) (i succ : Nat) (tr : List Event),
      (∀ c ∈ cfgs, goodCfg w c) →
      successCount (scanLoop w uidO gidO total cfgs i succ tr)
        = some (succ + cfgs.length, total) := by
  intro cfgs
  induction cfgs with
  | nil => intro i succ tr _; simp [scanLoop, successCount]
  | cons c rest ih =>
    intro i succ tr h
    have hstep := stepConfig_of_good w uidO gidO i c (h c (by simp))
    simp only [scanLoop, hstep, if_true]
    rw [ih (i + 1) (succ + 1) _ (fun x hx => h x (by simp [hx]))]
    simp only [List.length_cons]
    congr 2
    omega

/-- Claim C3 (amended).  For a configuration matrix of size N, if the
build succeeds and every configuration is clean — its run exits 0, its
`chown` exits 0, and enrichment does not raise an exception that escapes
the handler — the final summary reports N successful of N.  (The
unamended claim assumed only zero run-executor failures; a nonzero
`chown` exit or an escaping enrichment exception also loses the
configuration, see the counterexample.) -/
theorem C3_all_good_full_tally (w : World) (cfgs : List Cfg)
    (hb : w.buildExit = 0) (h : ∀ c ∈ cfgs, goodCfg w c) :
    successCount (scanConfigs w cfgs) = some (cfgs.length, cfgs.length) := by
  unfold scanConfigs
  rw [if_neg (by simp [hb])]
  simpa using scanLoop_all_good w _ _ cfgs.length cfgs 0 0 [] h

/-- Claim C3, as stated, is false: a one-configuration matrix with no
run-executor failure (exit status 0) but a failing `chown` yields a final
summary of 0 successful of 1, not 1 of 1. -/
theorem C3_counterexample :
    (wChownFail.outcome (1, 100000, 1024)).exitCode = 0
    ∧ successCount (scanConfigs wChownFail [(1, 100000, 1024)]) = some (0, 1)
    ∧ some ((0 : Nat), (1 : Nat)) ≠ some (1, 1) :=
  ⟨by decide, by decide, by decide⟩

/-- Witness for C3: one clean configuration gives a 1-of-1 summary. -/
theorem C3_witness :
    successCount (scanConfigs wOK [(1, 100000, 1024)]) = some (1, 1) :=
  C3_all_good_full_tally wOK [(1, 100000, 1024)] rfl (by decide)

/-- Claim C9.  `run_batch_scan` first runs `cargo build --release` with
`check=True`; if the build exits nonzero the `CalledProcessError`
propagates out of the function before any configuration is attempted: the
result is `buildFailed` — no loop iteration runs and no final summary is
printed — for the fixed matrix and for any matrix. -/
theorem C9_build_failure_propagates (w : World) (cfgs : List Cfg) (hb : w.buildExit ≠ 0) :
    scanConfigs w cfgs = .buildFailed ∧ run_batch_scan w = .buildFailed := by
  constructor
  · unfold scanConfigs
    rw [if_pos hb]
  · unfold run_batch_scan scanConfigs
    rw [if_pos hb]

/-- Witness for C9: a world whose build exits with status 101. -/
theorem C9_witness :
    scanConfigs wBuildFail [] = .buildFailed ∧ run_batch_scan wBuildFail = .buildFailed :=
  C9_build_failure_propagates wBuildFail [] (by decide)

/-- Claim C10 (amended).  The id-resolution cannot raise —
`os.environ.get` with a default and `str(os.getuid())` are total — so both
resolved ids are always non-`None` strings and the `except` arm that would
skip ownership normalization with a warning is unreachable (first
conjunct: `resolve_ids` always yields a `some` pair).  The `chown` step is
attempted for a configuration whose run exits 0 whenever both resolved
strings are also non-empty; the `str(getuid)`/`str(getgid)` fallbacks are
never empty, so skipping requires an empty-string `SUDO_UID` or `SUDO_GID`
environment value (see the counterexample). -/
theorem C10_chown_gating (w : World) (i : Nat) (c : Cfg)
    (h0 : (w.outcome c).exitCode = 0)
    (hu : (w.env "SUDO_UID").getD (Nat.repr w.uid) ≠ "")
    (hg : (w.env "SUDO_GID").getD (Nat.repr w.gid) ≠ "") :
    resolve_ids w = (some ((w.env "SUDO_UID").getD (Nat.repr w.uid)),
      some ((w.env "SUDO_GID").getD (Nat.repr w.gid)))
    ∧ Event.chownInvoked i ∈ stepEvents (stepConfig w (resolve_ids w).1 (resolve_ids w).2 i c)
    ∧ Nat.repr w.uid ≠ "" ∧ Nat.repr w.gid ≠ "" := by
  refine ⟨rfl, ?_, nat_repr_ne_empty _, nat_repr_ne_empty _⟩
  have key : ∀ (o : RunOutcome),
      Event.chownInvoked i ∈ stepEvents (afterChownStep i o [Event.chownInvoked i]) := by
    intro o
    unfold afterChownStep
    by_cases hri : (inject_metrics_into_json o.reportFile
        (parse_custom_metrics o.output).metrics).2 = .raised
    · simp [hri, stepEvents]
    · simp [hri, stepEvents]
  have hb2 : (pyTruthyOpt (resolve_ids w).1 && pyTruthyOpt (resolve_ids w).2) = true := by
    simp [resolve_ids, pyTruthyOpt, hu, hg]
  unfold stepConfig
  simp only [h0, ne_eq, not_true_eq_false, if_false, hb2, if_true]
  by_cases hce : (w.outcome c).chownExit ≠ 0
  · simp [hce, stepEvents]
  · simp only [hce, if_false]
    exact key _

/-- Claim C10, as stated, is false in its last part: with `SUDO_UID` and
`SUDO_GID` set to empty strings, the resolved ids are non-`None` strings,
the run exits 0, yet `if user_id and group_id:` is falsy and the `chown`
step is skipped — the completed trace contains no chown invocation. -/
theorem C10_counterexample :
    (wEmptySudo.outcome (1, 100000, 1024)).exitCode = 0
    ∧ scanConfigs wEmptySudo [(1, 100000, 1024)] =
        .completed 1 1 [.metricsExtracted 0, .enrichInvoked 0, .okPrinted 0]
    ∧ Event.chownInvoked 0 ∉
        [Event.metricsExtracted 0, Event.enrichInvoked 0, Event.okPrinted 0] :=
  ⟨by decide, by decide, by decide⟩

/-- Witness for C10: with no `SUDO_UID`/`SUDO_GID` set, the fallback
`str(getuid())` strings are non-empty and the chown step is attempted. -/
theorem C10_witness :
    resolve_ids wOK = (some ((wOK.env "SUDO_UID").getD (Nat.repr wOK.uid)),
      some ((wOK.env "SUDO_GID").getD (Nat.repr wOK.gid)))
    ∧ Event.chownInvoked 0 ∈
        stepEvents (stepConfig wOK (resolve_ids wOK).1 (resolve_ids wOK).2 0 (1, 100000, 1024))
    ∧ Nat.repr wOK.uid ≠ "" ∧ Nat.repr wOK.gid ≠ "" :=
  C10_chown_gating wOK 0 (1, 100000, 1024) (by decide) (by decide) (by decide)
